import Mathlib

/-!
Verification development for the WhaleWatcher server code
(`server_code/fetchData.py`, `server_code/dbUtils.py`, `server_code/main.py`).

The Python code is shallowly embedded as follows.

* JSON values / Python dicts are the inductive type `Json`; Python numbers
  (int and float alike) are modelled as exact rationals `ℚ`.
* Python exceptions are the type `PyExc`; fallible code runs in
  `Except PyExc`.  Primitive dict operations (`d[k]`, `d.get(k, default)`,
  `d[k] = v`) are `pySubscript`, `pyGetD` and `pySetItem`, each raising the
  exception CPython would raise (KeyError on a missing key, TypeError when
  subscripting a non-container, AttributeError when calling `.get` on a
  value that is not a dict).  Exception message texts mirror CPython
  where they matter (`str(KeyError(k))` is the quoted key); for type names
  the int/float distinction collapses to "number" because numbers are `ℚ`.
* The HTTP transport (`requests.get` + `raise_for_status` + `.json()`) and
  the secret store are external collaborators; they are oracle parameters
  (`http : String → HttpOutcome`, `secrets : String → String`).
* The Anvil data tables are lists of `Row`; `app_tables.todaysdata.get` is
  `tableGet` (raising when more than one row matches, as Anvil's `get`
  does); write failures of the underlying store are modelled by the
  `writeFails` flag.
* `datetime.strptime(s, "%Y-%m-%d")` is `parseYMD` (exactly four year
  digits, one or two month/day digits with CPython's range checks, and the
  `datetime` constructor's day-of-month validation); `strftime("%y%m%d")`
  is `formatYYMMDD`.  `str.lower` is `lowerString` (ASCII case mapping).
* Python's fixed-point format `f"{x:08.0f}"` rounds to the nearest integer,
  ties to even; floats are modelled as exact rationals, so the rounding is
  `roundHalfEvenFrac` on the exact value.
-/

namespace WhaleWatcher

/-- JSON values / Python objects as passed around by the server code. -/
inductive Json where
  | null : Json
  | bool : Bool → Json
  | num : ℚ → Json
  | str : String → Json
  | arr : List Json → Json
  | obj : List (String × Json) → Json

/-- Python exceptions raised (and sometimes caught) by the embedded code. -/
inductive PyExc where
  | keyError (key : String)
  | typeError (msg : String)
  | attributeError (msg : String)
  | valueError (msg : String)
  | dbError (msg : String)
deriving DecidableEq

/-- The Python type name of a value, used in exception messages.  Numbers
are modelled as `ℚ`, so int and float collapse to "number". -/
def typeName : Json → String
  | .null => "NoneType"
  | .bool _ => "bool"
  | .num _ => "number"
  | .str _ => "str"
  | .arr _ => "list"
  | .obj _ => "dict"

/-- First-match association-list lookup, the Python dict lookup. -/
def lookupKey : List (String × Json) → String → Option Json
  | [], _ => none
  | (k, v) :: rest, key => if k = key then some v else lookupKey rest key

/-- Lookup on a `Json` value; `none` on anything that is not a dict. -/
def Json.objLookup : Json → String → Option Json
  | .obj m, k => lookupKey m k
  | _, _ => none

/-- True exactly on dict values. -/
def Json.isObj : Json → Bool
  | .obj _ => true
  | _ => false

/-- Python `v[k]` for a string key: the value on a dict hit, `KeyError` on a
dict miss, `TypeError` on any non-dict (lists and strings reject string
indices; other values are not subscriptable). -/
def pySubscript (v : Json) (k : String) : Except PyExc Json :=
  match v with
  | .obj m =>
    match lookupKey m k with
    | some x => .ok x
    | none => .error (.keyError k)
  | .arr _ => .error (.typeError "list indices must be integers or slices, not str")
  | .str _ => .error (.typeError "string indices must be integers")
  | _ => .error (.typeError (typeName v ++ " is not subscriptable"))

/-- Python `v.get(k, d)`: only dicts have a `.get` attribute; every other
value raises `AttributeError`. -/
def pyGetD (v : Json) (k : String) (d : Json) : Except PyExc Json :=
  match v with
  | .obj m => .ok ((lookupKey m k).getD d)
  | _ => .error (.attributeError ("\x27" ++ typeName v ++ "\x27 object has no attribute \x27get\x27"))

/-- Replace the value at `key` in place, or append a new binding at the end
(Python dicts keep insertion order and append new keys). -/
def setKey : List (String × Json) → String → Json → List (String × Json)
  | [], key, x => [(key, x)]
  | (k, v) :: rest, key, x =>
    if k = key then (key, x) :: rest else (k, v) :: setKey rest key x

/-- Python `v[k] = x`: item assignment, `TypeError` on non-dicts. -/
def pySetItem (v : Json) (k : String) (x : Json) : Except PyExc Json :=
  match v with
  | .obj m => .ok (Json.obj (setKey m k x))
  | _ => .error (.typeError (typeName v ++ " does not support item assignment"))

/-- Python truthiness of a value. -/
def pyTruthy : Json → Bool
  | .null => false
  | .bool b => b
  | .num q => decide (q ≠ 0)
  | .str s => decide (s ≠ "")
  | .arr l => !l.isEmpty
  | .obj m => !m.isEmpty

/-- Python `str(e)` for a caught exception: `str(KeyError(k))` is the repr
of the key (the key in quotes), other exceptions stringify to their
message. -/
def pyExcStr : PyExc → String
  | .keyError k => "\x27" ++ k ++ "\x27"
  | .typeError m => m
  | .attributeError m => m
  | .valueError m => m
  | .dbError m => m

/-- Whether an `Except` computation succeeded. -/
def exceptIsOk : Except ε α → Bool
  | .ok _ => true
  | .error _ => false

/-- The value of a successful `Except` computation, with a default. -/
def exceptGetD : Except ε α → α → α
  | .ok a, _ => a
  | .error _, d => d

/-! ## SymbolBuilder: `build_option_symbol` (fetchData.py lines 23-50) -/

/-- Leap-year rule used by `datetime`'s day-of-month validation. -/
def isLeapYear (y : Nat) : Bool :=
  y % 4 = 0 && (y % 100 ≠ 0 || y % 400 = 0)

/-- Number of days of month `m` in year `y` (the `datetime` constructor
rejects out-of-range days). -/
def daysInMonth (y m : Nat) : Nat :=
  if m = 2 then (if isLeapYear y then 29 else 28)
  else if m = 4 ∨ m = 6 ∨ m = 9 ∨ m = 11 then 30 else 31

/-- Accumulating decimal parse of an all-digit character list. -/
def digitsToNat (acc : Nat) : List Char → Option Nat
  | [] => some acc
  | c :: cs => if c.isDigit then digitsToNat (acc * 10 + (c.toNat - 48)) cs else none

/-- Split a character list at every dash, the shape `strptime` needs for
the fixed `%Y-%m-%d` format. -/
def splitDash : List Char → List (List Char)
  | [] => [[]]
  | c :: cs =>
    if c = '-' then [] :: splitDash cs
    else
      match splitDash cs with
      | g :: gs => (c :: g) :: gs
      | [] => [[c]]

/-- A month or day component of `strptime("%Y-%m-%d")`: one or two digits,
value between 1 and `hi` (CPython's `%m` regex accepts 1-12, `%d` accepts
1-31, each written with one or two digits). -/
def monthDayOk (cs : List Char) (hi : Nat) : Option Nat :=
  if cs.length = 1 ∨ cs.length = 2 then
    match digitsToNat 0 cs with
    | some v => if 1 ≤ v ∧ v ≤ hi then some v else none
    | none => none
  else none

/-- Embedding of `datetime.strptime(s, "%Y-%m-%d")`: exactly four year
digits, dash, 1-2 month digits in 1..12, dash, 1-2 day digits in 1..31,
nothing left over; then the `datetime(year, month, day)` constructor
checks `year ≥ 1` and the day against the month length.  Returns
`(year, month, day)` or `none` (a `ValueError` in Python). -/
def parseYMD (s : String) : Option (Nat × Nat × Nat) :=
  match splitDash s.toList with
  | [ycs, mcs, dcs] =>
    if ycs.length = 4 then
      match digitsToNat 0 ycs, monthDayOk mcs 12, monthDayOk dcs 31 with
      | some y, some m, some d =>
        if 1 ≤ y ∧ d ≤ daysInMonth y m then some (y, m, d) else none
      | _, _, _ => none
    else none
  | _ => none

/-- Two-digit zero-padded decimal rendering (the `%y`, `%m`, `%d` fields
of `strftime`). -/
def pad2 (n : Nat) : String :=
  if n < 10 then "0" ++ toString n else toString n

/-- Embedding of `exp_date.strftime("%y%m%d")`. -/
def formatYYMMDD (y m d : Nat) : String :=
  pad2 (y % 100) ++ pad2 m ++ pad2 d

/-- ASCII `str.lower`. -/
def lowerString (s : String) : String :=
  String.mk (s.data.map Char.toLower)

/-- Left-pad a string with zeros to width `w`. -/
def zeroPadTo (w : Nat) (s : String) : String :=
  if s.length ≥ w then s else String.mk (List.replicate (w - s.length) '0') ++ s

/-- Round the rational `a / b` (with `b > 0` in use) to the nearest
integer, ties to even — the rounding of Python's fixed-point float
formatting applied to the exact value. -/
def roundHalfEvenFrac (a : ℤ) (b : ℕ) : ℤ :=
  if 2 * (a - a / (b : ℤ) * b) < (b : ℤ) then a / (b : ℤ)
  else if (b : ℤ) < 2 * (a - a / (b : ℤ) * b) then a / (b : ℤ) + 1
  else if a / (b : ℤ) % 2 = 0 then a / (b : ℤ) else a / (b : ℤ) + 1

/-- Embedding of `f"{x:08.0f}"` for the exact rational `a / b`: round to
the nearest integer (ties to even) and render, zero-padded to total width
8 (the sign counts toward the width). -/
def fmtFixed0Width8 (a : ℤ) (b : ℕ) : String :=
  let n := roundHalfEvenFrac a b
  if n < 0 then "-" ++ zeroPadTo 7 (toString n.natAbs)
  else zeroPadTo 8 (toString n.natAbs)

/-- The strike field of the OCC symbol: `f"{float(strike) * 1000:08.0f}"`.
The float is modelled as the exact rational `strike`, so the formatted
value is `strike * 1000 = (1000 * strike.num) / strike.den`. -/
def strikeField (strike : ℚ) : String :=
  fmtFixed0Width8 (1000 * strike.num) strike.den

/-- The `ValueError` raised by `strptime` on a non-matching date string. -/
def strptimeError (s : String) : PyExc :=
  .valueError ("time data \x27" ++ s ++ "\x27 does not match format \x27%Y-%m-%d\x27")

/-- Embedding of `build_option_symbol` (fetchData.py lines 23-50):
reformat the expiration date, map the option type (`"call"`
case-insensitively to `C`, anything else to `P`), scale and format the
strike, and concatenate `O:{ticker}{YYMMDD}{C|P}{strike}`. -/
def build_option_symbol (ticker expiration_date option_type : String) (strike : ℚ) :
    Except PyExc String :=
  match parseYMD expiration_date with
  | none => .error (strptimeError expiration_date)
  | some (y, m, d) =>
    let exp_formatted := formatYYMMDD y m d
    let opt_type := if lowerString option_type = "call" then "C" else "P"
    let strike_formatted := strikeField strike
    .ok ("O:" ++ ticker ++ exp_formatted ++ opt_type ++ strike_formatted)

/-! ## ProviderClient: `fetch_from_polygon` (fetchData.py lines 52-79) -/

/-- Outcome of the HTTP transport for one URL: a 2xx response whose body
parsed as JSON, or a caught `requests.exceptions.RequestException`
(non-2xx status via `raise_for_status`, network error, timeout) carrying
the status code when one is available. -/
inductive HttpOutcome where
  | success (status : Nat) (body : Json)
  | requestError (msg : String) (status : Option Nat)

/-- The URL built on fetchData.py line 63: a single path parameter (the
option symbol) after the fixed prefix, with the API key as the only query
parameter. -/
def polygonUrl (api_key option_symbol : String) : String :=
  "https://api.polygon.io/v3/snapshot/options/" ++ option_symbol ++ "?apiKey=" ++ api_key

/-- Embedding of `fetch_from_polygon` (fetchData.py lines 52-79): fetch
the API key from the secret store, issue one GET against `polygonUrl`,
and wrap the outcome as a success or failure dict.  No exception escapes. -/
def fetch_from_polygon (secrets : String → String) (http : String → HttpOutcome)
    (option_symbol : String) : Json :=
  let api_key := secrets "Polygon_APIKey"
  match http (polygonUrl api_key option_symbol) with
  | .success status body =>
    Json.obj [("success", Json.bool true), ("data", body), ("status_code", Json.num status)]
  | .requestError msg st =>
    Json.obj [("success", Json.bool false), ("error", Json.str msg),
      ("status_code", match st with | some c => Json.num c | none => Json.null)]

/-! ## MetricsExtractor: `extract_option_metrics` (fetchData.py lines 81-147) -/

/-- The failure dict `{"success": False, "error": e}` built by
`extract_option_metrics` on both its early-return and its caught-exception
paths. -/
def mkFailure (e : Json) : Json :=
  Json.obj [("success", Json.bool false), ("error", e)]

/-- The body of the `try` block of `extract_option_metrics` (fetchData.py
lines 97-142), in order of evaluation. -/
def extractTry (response_data : Json) : Except PyExc Json := do
  let data ← pySubscript response_data "data"
  let results ← pySubscript data "results"
  let day_data ← pyGetD results "day" (Json.obj [])
  let volume ← pyGetD day_data "volume" (Json.num 0)
  let open_interest ← pyGetD results "open_interest" (Json.num 0)
  let details ← pyGetD results "details" (Json.obj [])
  let contract_type ← pyGetD details "contract_type" (Json.str "")
  let strike_price ← pyGetD details "strike_price" (Json.num 0)
  let expiration_date ← pyGetD details "expiration_date" (Json.str "")
  let ticker ← pyGetD details "ticker" (Json.str "")
  let greeks ← pyGetD results "greeks" (Json.obj [])
  let delta ← pyGetD greeks "delta" (Json.num 0)
  let gamma ← pyGetD greeks "gamma" (Json.num 0)
  let theta ← pyGetD greeks "theta" (Json.num 0)
  let vega ← pyGetD greeks "vega" (Json.num 0)
  let implied_volatility ← pyGetD results "implied_volatility" (Json.num 0)
  let underlying_asset ← pyGetD results "underlying_asset" (Json.obj [])
  let underlying_ticker ← pyGetD underlying_asset "ticker" (Json.str "")
  return Json.obj [("success", Json.bool true), ("symbol", ticker), ("volume", volume),
    ("open_interest", open_interest), ("contract_type", contract_type),
    ("strike_price", strike_price), ("expiration_date", expiration_date),
    ("delta", delta), ("gamma", gamma), ("theta", theta), ("vega", vega),
    ("implied_volatility", implied_volatility), ("underlying_ticker", underlying_ticker),
    ("raw_data", results)]

/-- The `except (KeyError, TypeError)` clause on fetchData.py line 143
catches exactly these two exception classes; anything else (notably
`AttributeError` from `.get` on a non-dict) propagates. -/
def caughtByExtract : PyExc → Bool
  | .keyError _ => true
  | .typeError _ => true
  | _ => false

/-- Embedding of `extract_option_metrics` (fetchData.py lines 81-147).
A falsy `success` short-circuits to a fresh failure dict rebuilt from the
input's `error` field; otherwise the `try` block runs, with `KeyError` and
`TypeError` converted to a parse-failure dict and every other exception
propagating. -/
def extract_option_metrics (response_data : Json) : Except PyExc Json := do
  let s ← pyGetD response_data "success" (Json.bool false)
  if pyTruthy s then
    match extractTry response_data with
    | .ok v => return v
    | .error e =>
      if caughtByExtract e then
        return mkFailure (Json.str ("Error parsing response: " ++ pyExcStr e))
      else
        .error e
  else
    let e ← pyGetD response_data "error" (Json.str "Unknown error occurred")
    return mkFailure e

/-! ## Pipeline: `get_option_data` (fetchData.py lines 149-169) -/

/-- Embedding of `get_option_data`: build the symbol (`ValueError` from a
malformed date propagates), fetch, extract. -/
def get_option_data (secrets : String → String) (http : String → HttpOutcome)
    (ticker : String) (strike : ℚ) (option_type expiration_date : String) :
    Except PyExc Json := do
  let option_symbol ← build_option_symbol ticker expiration_date option_type strike
  extract_option_metrics (fetch_from_polygon secrets http option_symbol)

/-! ## BatchRunner: `get_all_contract_data` (main.py lines 37-87) -/

/-- One row of the read-only whales watchlist table. -/
structure Whale where
  tradeID : String
  ticker : String
  strike : ℚ
  side : String
  expiration : String

/-- The float format specs `:.4f` / `:.6f` on main.py lines 75-77 accept
numbers (and bools, which Python treats as ints) and raise on anything
else. -/
def pyFormatF (v : Json) : Except PyExc Unit :=
  match v with
  | .num _ => .ok ()
  | .bool _ => .ok ()
  | _ => .error (.typeError ("unsupported format string passed to " ++ typeName v))

/-- The field accesses and float formats performed by the success-branch
prints of main.py lines 74-77, in evaluation order. -/
def printSuccessChecks (od : Json) : Except PyExc Unit := do
  let _ ← pySubscript od "volume"
  let _ ← pySubscript od "open_interest"
  let d ← pySubscript od "delta"
  let _ ← pyFormatF d
  let g ← pySubscript od "gamma"
  let _ ← pyFormatF g
  let t ← pySubscript od "theta"
  let _ ← pyFormatF t
  let v ← pySubscript od "vega"
  let _ ← pyFormatF v
  let iv ← pySubscript od "implied_volatility"
  let _ ← pyFormatF iv
  return ()

/-- One iteration of the loop of `get_all_contract_data` (main.py lines
51-82): map `side` to an option type (`"C"` to call, anything else to
put), run the pipeline, tag the result dict with the tradeID, and perform
the console prints of either branch (whose dict accesses and float
formats can raise). -/
def processWhale (secrets : String → String) (http : String → HttpOutcome) (w : Whale) :
    Except PyExc Json :=
  let option_type := if w.side = "C" then "call" else "put"
  match get_option_data secrets http w.ticker w.strike option_type w.expiration with
  | .error e => .error e
  | .ok od0 =>
    match pySetItem od0 "tradeID" (Json.str w.tradeID) with
    | .error e => .error e
    | .ok od =>
      match pySubscript od "success" with
      | .error e => .error e
      | .ok s =>
        if pyTruthy s then
          match printSuccessChecks od with
          | .error e => .error e
          | .ok _ => .ok od
        else
          match pyGetD od "error" (Json.str "Unknown error") with
          | .error e => .error e
          | .ok _ => .ok od

/-- Embedding of `get_all_contract_data` (main.py lines 37-87): process the
watchlist strictly in order, appending each tagged result; an uncaught
exception in any iteration propagates out of the whole batch. -/
def get_all_contract_data (secrets : String → String) (http : String → HttpOutcome) :
    List Whale → Except PyExc (List Json)
  | [] => .ok []
  | w :: ws => do
    let r ← processWhale secrets http w
    let rest ← get_all_contract_data secrets http ws
    return r :: rest

/-! ## SnapshotStore: `save_option_data_to_table` (dbUtils.py lines 20-64) -/

/-- One row of the read/write `todaysdata` snapshot table. -/
structure Row where
  tradeID : String
  ticker : String
  strike : ℚ
  side : String
  expiration : String
  volume : Json
  openInterest : Json

/-- The `todaysdata` table state. -/
abbrev Table := List Row

/-- Embedding of `app_tables.todaysdata.get(tradeID=trade_id)`: the unique
matching row, `None` when absent, and an error when more than one row
matches (Anvil's `get` raises in that case). -/
def tableGet (tbl : Table) (tid : String) : Except PyExc (Option Row) :=
  match tbl.filter (fun r => r.tradeID == tid) with
  | [] => .ok none
  | [r] => .ok (some r)
  | _ => .error (.dbError "get: more than one row matched this query")

/-- Embedding of `save_option_data_to_table` (dbUtils.py lines 20-64).
Look up by tradeID, read `volume` and `open_interest` out of
`option_data` (both reads happen before any write, since Python evaluates
the keyword arguments of `update` / `add_row` first), then update the
existing row in place or append a new one.  `writeFails` models the
underlying table operation itself raising.  The catch-all `except` turns
any exception into a `False` return, leaving the table untouched. -/
def save_option_data_to_table (writeFails : Bool) (tbl : Table) (trade_id ticker : String)
    (strike : ℚ) (side expiration : String) (option_data : Json) : Bool × Table :=
  let attempt : Except PyExc Table := do
    let existing ← tableGet tbl trade_id
    let vol ← pySubscript option_data "volume"
    let oi ← pySubscript option_data "open_interest"
    if writeFails then
      throw (.dbError "table write failed")
    else
      match existing with
      | some _ =>
        return tbl.map fun r =>
          if r.tradeID == trade_id then
            ⟨r.tradeID, ticker, strike, side, expiration, vol, oi⟩
          else r
      | none =>
        return tbl ++ [⟨trade_id, ticker, strike, side, expiration, vol, oi⟩]
  match attempt with
  | .ok t => (true, t)
  | .error _ => (false, tbl)

/-- The batch runner `get_all_contract_data` with the `todaysdata` table threaded through,
so that the batch runner's (absent) persistence effect is observable: no
statement in main.py lines 37-87 touches `app_tables.todaysdata`, so the
table passes through unchanged whatever happens. -/
def get_all_contract_data_st (tbl : Table) (secrets : String → String)
    (http : String → HttpOutcome) (whales : List Whale) :
    Except PyExc (List Json) × Table :=
  (get_all_contract_data secrets http whales, tbl)

/-! ## Concrete fixtures for witnesses and counterexamples -/

/-- A secret store answering every secret name with "KEY". -/
def secretsStub : String → String := fun _ => "KEY"

/-- The exact rational 575.0006, a strike whose scaled value 575000.6 has
fractional part above one half. -/
def strikeC9 : ℚ := ⟨2875003, 5000, by norm_num, by norm_num [Nat.Coprime]⟩

/-- A transport answering every URL with an empty-results 2xx response. -/
def httpC8a : String → HttpOutcome := fun _ => .success 200 Json.null

/-- A transport that succeeds only on the one URL the code builds for the
SPY contract and fails everywhere else. -/
def httpC8b : String → HttpOutcome := fun url =>
  if url = polygonUrl "KEY" "O:SPY250307C00575000" then .success 200 Json.null
  else .requestError "connection refused" none

/-- A transport failure dict as `fetch_from_polygon` would return it. -/
def fdC6 : Json :=
  Json.obj [("success", Json.bool false), ("error", Json.str "404 Client Error"),
    ("status_code", Json.num 404)]

/-- A failure dict with an extra field, as a dict literal. -/
def mC6w : List (String × Json) :=
  [("success", Json.bool false), ("error", Json.str "boom"), ("status_code", Json.num 500)]

/-- A pre-existing snapshot row for an unrelated tradeID. -/
def rowC10 : Row := ⟨"T0", "QQQ", 400, "P", "2025-01-17", Json.num 1, Json.num 2⟩

/-- A Success payload whose `results` is a number, not a mapping. -/
def rdC5 : Json :=
  Json.obj [("success", Json.bool true), ("data", Json.obj [("results", Json.num 5)]),
    ("status_code", Json.num 200)]

/-- A Success payload whose data dict has no `results` key. -/
def mC5w : List (String × Json) :=
  [("success", Json.bool true), ("data", Json.obj []), ("status_code", Json.num 200)]

/-- A results mapping with an open interest but none of the sub-objects. -/
def resC7w : List (String × Json) := [("open_interest", Json.num 42)]

/-- The data envelope around `resC7w`. -/
def dmC7w : List (String × Json) := [("results", Json.obj resC7w)]

/-- Option data for a first upsert call. -/
def odC1a : Json := Json.obj [("volume", Json.num 1), ("open_interest", Json.num 2)]

/-- Option data for a second upsert call with different values. -/
def odC1b : Json := Json.obj [("volume", Json.num 3), ("open_interest", Json.num 4)]

/-- A transport answering every URL with a 2xx empty-results body. -/
def httpC2 : String → HttpOutcome :=
  fun _ => .success 200 (Json.obj [("results", Json.obj [])])

/-- A watchlist entry with a well-formed expiration date. -/
def whaleC2 : Whale := ⟨"T1", "SPY", 575, "C", "2025-03-07"⟩

/-- Whether a result dict records a successful fetch. -/
def isSuccessDict (r : Json) : Bool :=
  match r.objLookup "success" with
  | some (Json.bool true) => true
  | _ => false

/-- Whether a batch outcome is a list of all-success dicts. -/
def batchAllSucceeded : Except PyExc (List Json) → Bool
  | .ok rs => rs.all isSuccessDict
  | .error _ => false

/-- A watchlist entry whose expiration date does not parse. -/
def whaleC3bad : Whale := ⟨"T9", "SPY", 575, "C", "bad-date"⟩

/-- A transport on which every request fails. -/
def httpAllFail : String → HttpOutcome := fun _ => .requestError "boom" none

/-- A second well-formed watchlist entry. -/
def whaleC3b : Whale := ⟨"T2", "QQQ", 400, "P", "2025-06-20"⟩

/-! ## General helper lemmas -/

theorem ok_bind (a : α) (f : α → Except PyExc β) : (Except.ok a >>= f) = f a := rfl

theorem error_bind (e : PyExc) (f : α → Except PyExc β) :
    ((Except.error e : Except PyExc α) >>= f) = .error e := rfl

theorem isObj_exists {v : Json} (h : v.isObj = true) : ∃ l, v = Json.obj l := by
  cases v <;> simp [Json.isObj] at h ⊢

/-! ## C4: the shape of `build_option_symbol` -/

/-- C4: for every input whose expiration date parses, `build_option_symbol`
returns `"O:" ++ ticker ++ YYMMDD ++ (C when the lowercased option type is
"call", else P) ++ strike field` with no other separators; in particular
"CALL"/"Call"/"call" yield C, "put"/"anything-else"/"" yield P, and
`build("SPY", "2025-03-07", "call", 575.0) = "O:SPY250307C00575000"`. -/
theorem whale_C4 :
    (∀ (ticker exp ot : String) (strike : ℚ) (y m d : Nat),
      parseYMD exp = some (y, m, d) →
      build_option_symbol ticker exp ot strike =
        .ok ("O:" ++ ticker ++ formatYYMMDD y m d ++
          (if lowerString ot = "call" then "C" else "P") ++ strikeField strike))
    ∧ build_option_symbol "SPY" "2025-03-07" "call" 575 = .ok "O:SPY250307C00575000"
    ∧ build_option_symbol "SPY" "2025-03-07" "CALL" 575 = .ok "O:SPY250307C00575000"
    ∧ build_option_symbol "SPY" "2025-03-07" "Call" 575 = .ok "O:SPY250307C00575000"
    ∧ build_option_symbol "SPY" "2025-03-07" "put" 575 = .ok "O:SPY250307P00575000"
    ∧ build_option_symbol "SPY" "2025-03-07" "anything-else" 575 = .ok "O:SPY250307P00575000"
    ∧ build_option_symbol "SPY" "2025-03-07" "" 575 = .ok "O:SPY250307P00575000" := by
  refine ⟨?_, rfl, rfl, rfl, rfl, rfl, rfl⟩
  intro ticker exp ot strike y m d h
  simp only [build_option_symbol, h]

/-- C4 witness: the universal part of `whale_C4` applied at a concrete
input. -/
theorem whale_C4_witness :
    parseYMD "2025-03-07" = some (2025, 3, 7) ∧
    build_option_symbol "AAPL" "2025-03-07" "pUt" 123 =
      .ok ("O:" ++ "AAPL" ++ formatYYMMDD 2025 3 7 ++
        (if lowerString "pUt" = "call" then "C" else "P") ++ strikeField 123) :=
  ⟨rfl, whale_C4.1 "AAPL" "2025-03-07" "pUt" 123 2025 3 7 rfl⟩

/-! ## C9: the strike encoding rounds to the nearest integer -/

theorem roundHalfEvenFrac_ge_floor (a : ℤ) (b : ℕ) : a / (b : ℤ) ≤ roundHalfEvenFrac a b := by
  unfold roundHalfEvenFrac
  split_ifs <;> omega

theorem roundHalfEvenFrac_spec (a : ℤ) (b : ℕ) (hb : 0 < b) :
    |(a : ℚ) / (b : ℚ) - (roundHalfEvenFrac a b : ℚ)| ≤ 1 / 2 ∧
    (1 / 2 < Int.fract ((a : ℚ) / (b : ℚ)) →
      roundHalfEvenFrac a b = ⌊(a : ℚ) / (b : ℚ)⌋ + 1) := by
  have hbQ : (0 : ℚ) < (b : ℚ) := by exact_mod_cast hb
  have hbne : ((b : ℚ)) ≠ 0 := ne_of_gt hbQ
  have hba : (b : ℚ) * ((a : ℚ) / (b : ℚ)) = (a : ℚ) := by
    rw [mul_comm, div_mul_cancel₀ _ hbne]
  obtain ⟨x, hxdef⟩ : ∃ x : ℚ, (a : ℚ) / (b : ℚ) = x := ⟨_, rfl⟩
  rw [hxdef] at hba ⊢
  have hf : a / (b : ℤ) = ⌊x⌋ := by
    rw [← hxdef]; exact (Rat.floor_intCast_div_natCast a b).symm
  have hfr0 : 0 ≤ Int.fract x := Int.fract_nonneg x
  have hfr1 : Int.fract x < 1 := Int.fract_lt_one x
  have hfrdef : Int.fract x = x - (⌊x⌋ : ℚ) := Int.self_sub_floor x |>.symm
  have key : ((2 * (a - a / (b : ℤ) * b) : ℤ) : ℚ) = 2 * (b : ℚ) * Int.fract x := by
    rw [hf, hfrdef]
    push_cast
    linear_combination -2 * hba
  unfold roundHalfEvenFrac
  split_ifs with h1 h2 h3
  · -- fractional part below one half: round down
    have hq : 2 * (b : ℚ) * Int.fract x < (b : ℚ) := by
      rw [← key]; exact_mod_cast h1
    have hlt : Int.fract x < 1 / 2 := by nlinarith
    rw [hf]
    constructor
    · rw [← hfrdef, abs_of_nonneg hfr0]; linarith
    · intro hc; linarith
  · -- fractional part above one half: round up
    have hq : (b : ℚ) < 2 * (b : ℚ) * Int.fract x := by
      rw [← key]; exact_mod_cast h2
    have hgt : 1 / 2 < Int.fract x := by nlinarith
    rw [hf]
    refine ⟨?_, fun _ => rfl⟩
    have : x - ((⌊x⌋ : ℚ) + 1) = Int.fract x - 1 := by rw [hfrdef]; ring
    rw [show ((⌊x⌋ + 1 : ℤ) : ℚ) = (⌊x⌋ : ℚ) + 1 by push_cast; ring, this,
      abs_of_nonpos (by linarith)]
    linarith
  · -- exact tie, even floor: round down
    have ht : 2 * (a - a / (b : ℤ) * b) = (b : ℤ) := le_antisymm (not_lt.mp h2) (not_lt.mp h1)
    have hq : 2 * (b : ℚ) * Int.fract x = (b : ℚ) := by
      rw [← key]; exact_mod_cast ht
    have heq : Int.fract x = 1 / 2 := by
      have : (b : ℚ) * (2 * Int.fract x - 1) = 0 := by linarith
      rcases mul_eq_zero.mp this with h | h
      · exact absurd h hbne
      · linarith
    rw [hf]
    constructor
    · rw [← hfrdef, abs_of_nonneg hfr0]; linarith
    · intro hc; linarith
  · -- exact tie, odd floor: round up
    have ht : 2 * (a - a / (b : ℤ) * b) = (b : ℤ) := le_antisymm (not_lt.mp h2) (not_lt.mp h1)
    have hq : 2 * (b : ℚ) * Int.fract x = (b : ℚ) := by
      rw [← key]; exact_mod_cast ht
    have heq : Int.fract x = 1 / 2 := by
      have : (b : ℚ) * (2 * Int.fract x - 1) = 0 := by linarith
      rcases mul_eq_zero.mp this with h | h
      · exact absurd h hbne
      · linarith
    rw [hf]
    refine ⟨?_, fun _ => rfl⟩
    have : x - ((⌊x⌋ : ℚ) + 1) = Int.fract x - 1 := by rw [hfrdef]; ring
    rw [show ((⌊x⌋ + 1 : ℤ) : ℚ) = (⌊x⌋ : ℚ) + 1 by push_cast; ring, this,
      abs_of_nonpos (by linarith), heq]
    linarith

/-- The exact rational value formatted by the strike field is
`strike * 1000`. -/
theorem strike_scaled_eq (strike : ℚ) :
    ((1000 * strike.num : ℤ) : ℚ) / ((strike.den : ℕ) : ℚ) = strike * 1000 := by
  push_cast
  rw [mul_div_assoc, Rat.num_div_den]
  ring

/-- C9: for every non-negative strike, `build_option_symbol` encodes the
strike as the 8-digit zero-padded decimal rendering of
`strike * 1000` rounded to the nearest integer (within one half of the
exact value, and strictly rounding up — not flooring — whenever the
fractional part exceeds one half). -/
theorem whale_C9 : ∀ (ticker exp ot : String) (strike : ℚ) (y m d : Nat),
    parseYMD exp = some (y, m, d) → 0 ≤ strike →
    (build_option_symbol ticker exp ot strike =
      .ok ("O:" ++ ticker ++ formatYYMMDD y m d ++
        (if lowerString ot = "call" then "C" else "P") ++
        zeroPadTo 8 (toString (roundHalfEvenFrac (1000 * strike.num) strike.den).natAbs)))
    ∧ |strike * 1000 - (roundHalfEvenFrac (1000 * strike.num) strike.den : ℚ)| ≤ 1 / 2
    ∧ (1 / 2 < Int.fract (strike * 1000) →
        roundHalfEvenFrac (1000 * strike.num) strike.den = ⌊strike * 1000⌋ + 1) := by
  intro ticker exp ot strike y m d hparse hs
  have hden : 0 < strike.den := strike.pos
  have hspec := roundHalfEvenFrac_spec (1000 * strike.num) strike.den hden
  rw [strike_scaled_eq] at hspec
  have hx0 : (0 : ℚ) ≤ strike * 1000 := by positivity
  have hfl0 : (0 : ℤ) ≤ ⌊strike * 1000⌋ := by
    rw [Int.le_floor]; exact_mod_cast hx0
  have hfl : (1000 * strike.num) / ((strike.den : ℕ) : ℤ) = ⌊strike * 1000⌋ := by
    rw [Rat.floor_intCast_div_natCast (1000 * strike.num) strike.den |>.symm,
      strike_scaled_eq]
  have hn0 : 0 ≤ roundHalfEvenFrac (1000 * strike.num) strike.den := by
    have := roundHalfEvenFrac_ge_floor (1000 * strike.num) strike.den
    omega
  refine ⟨?_, hspec.1, hspec.2⟩
  simp only [build_option_symbol, hparse, strikeField, fmtFixed0Width8]
  rw [if_neg (not_lt.mpr hn0)]

/-- C9 witness: `whale_C9` applied at strike 575.0006 (an exact rational),
whose scaled value 575000.6 rounds up to 575001 rather than flooring to
575000. -/
theorem whale_C9_witness :
    parseYMD "2025-03-07" = some (2025, 3, 7) ∧ (0 : ℚ) ≤ strikeC9 ∧
    ((build_option_symbol "SPY" "2025-03-07" "call" strikeC9 =
      .ok ("O:" ++ "SPY" ++ formatYYMMDD 2025 3 7 ++
        (if lowerString "call" = "call" then "C" else "P") ++
        zeroPadTo 8 (toString (roundHalfEvenFrac (1000 * strikeC9.num) strikeC9.den).natAbs)))
    ∧ |strikeC9 * 1000 - (roundHalfEvenFrac (1000 * strikeC9.num) strikeC9.den : ℚ)| ≤ 1 / 2
    ∧ (1 / 2 < Int.fract (strikeC9 * 1000) →
        roundHalfEvenFrac (1000 * strikeC9.num) strikeC9.den = ⌊strikeC9 * 1000⌋ + 1))
    ∧ zeroPadTo 8 (toString (roundHalfEvenFrac (1000 * strikeC9.num) strikeC9.den).natAbs)
        = "00575001" :=
  ⟨rfl, by decide, whale_C9 "SPY" "2025-03-07" "call" strikeC9 2025 3 7 rfl (by decide), rfl⟩

/-! ## C8: the request URL -/

/-- C8 counterexample: the claimed URL form
`.../v3/snapshot/options/SPY/O:SPY250307C00575000?apiKey=KEY` — with the
ticker as its own path segment before the identifier — is not the URL the
code builds for that contract. -/
theorem whale_C8_cex :
    polygonUrl "KEY" "O:SPY250307C00575000" ≠
      "https://api.polygon.io/v3/snapshot/options/SPY/O:SPY250307C00575000?apiKey=KEY" := by
  decide

/-- C8 (amended): the single GET goes to
`https://api.polygon.io/v3/snapshot/options/` followed by the contract
identifier alone — there is no separate ticker path segment — with the
API key as the only query parameter; and the identifier URL is the only
URL the fetch consults (two transports agreeing on it produce identical
fetch results). -/
theorem whale_C8 :
    (∀ (api_key option_symbol : String),
      polygonUrl api_key option_symbol =
        "https://api.polygon.io/v3/snapshot/options/" ++ option_symbol ++
          "?apiKey=" ++ api_key)
    ∧ (∀ (secrets : String → String) (h1 h2 : String → HttpOutcome) (option_symbol : String),
        h1 (polygonUrl (secrets "Polygon_APIKey") option_symbol) =
          h2 (polygonUrl (secrets "Polygon_APIKey") option_symbol) →
        fetch_from_polygon secrets h1 option_symbol =
          fetch_from_polygon secrets h2 option_symbol) := by
  refine ⟨fun _ _ => rfl, fun secrets h1 h2 sym h => ?_⟩
  simp only [fetch_from_polygon, h]

/-- C8 witness: two transports that differ away from the identifier URL
but agree on it give the same fetch result. -/
theorem whale_C8_witness :
    httpC8a (polygonUrl (secretsStub "Polygon_APIKey") "O:SPY250307C00575000") =
      httpC8b (polygonUrl (secretsStub "Polygon_APIKey") "O:SPY250307C00575000")
    ∧ fetch_from_polygon secretsStub httpC8a "O:SPY250307C00575000" =
        fetch_from_polygon secretsStub httpC8b "O:SPY250307C00575000" :=
  ⟨rfl, whale_C8.2 secretsStub httpC8a httpC8b "O:SPY250307C00575000" rfl⟩

/-! ## C6: extraction of a failure input -/

/-- C6 counterexample: on a failure input carrying a status code, the
extractor returns a freshly built two-field dict; the input had a
`status_code` field, the output has none, so the failure is not passed
through unchanged. -/
theorem whale_C6_cex :
    extract_option_metrics fdC6 =
      .ok (Json.obj [("success", Json.bool false), ("error", Json.str "404 Client Error")])
    ∧ fdC6.objLookup "status_code" = some (Json.num 404)
    ∧ (Json.obj [("success", Json.bool false),
        ("error", Json.str "404 Client Error")]).objLookup "status_code" = none :=
  ⟨rfl, rfl, rfl⟩

/-- C6 (amended): on every input dict whose `success` entry is falsy,
`extract_option_metrics` returns the fresh failure dict
`{"success": False, "error": e}` where `e` is the input's `error` value
verbatim (or the literal "Unknown error occurred" when absent); all other
fields of the input, including `status_code`, are dropped. -/
theorem whale_C6 : ∀ (m : List (String × Json)),
    pyTruthy ((lookupKey m "success").getD (Json.bool false)) = false →
    extract_option_metrics (Json.obj m) =
      .ok (mkFailure ((lookupKey m "error").getD (Json.str "Unknown error occurred"))) := by
  intro m h
  simp only [extract_option_metrics, pyGetD, ok_bind, h, Bool.false_eq_true, if_false]
  rfl

/-- C6 witness: `whale_C6` applied to a concrete failure dict. -/
theorem whale_C6_witness :
    pyTruthy ((lookupKey mC6w "success").getD (Json.bool false)) = false
    ∧ extract_option_metrics (Json.obj mC6w) =
        .ok (mkFailure ((lookupKey mC6w "error").getD (Json.str "Unknown error occurred"))) :=
  ⟨rfl, whale_C6 mC6w rfl⟩

/-! ## C10: the snapshot write is atomic on error -/

/-- C10: whenever the option-data dict is missing its `volume` or its
`open_interest` key, or the underlying table write raises, the save
returns `False` and the table is exactly what it was: nothing is inserted
and no row is modified. -/
theorem whale_C10 : ∀ (wfail : Bool) (tbl : Table) (trade_id ticker : String) (strike : ℚ)
    (side expiration : String) (option_data : Json),
    (exceptIsOk (pySubscript option_data "volume") = false ∨
      exceptIsOk (pySubscript option_data "open_interest") = false ∨ wfail = true) →
    save_option_data_to_table wfail tbl trade_id ticker strike side expiration option_data =
      (false, tbl) := by
  intro wfail tbl trade_id ticker strike side expiration option_data h
  unfold save_option_data_to_table
  cases hg : tableGet tbl trade_id with
  | error e => simp [hg, error_bind]
  | ok ex =>
    simp only [hg, ok_bind]
    cases hv : pySubscript option_data "volume" with
    | error e => simp [error_bind]
    | ok v =>
      have h' : exceptIsOk (pySubscript option_data "open_interest") = false ∨ wfail = true := by
        rcases h with h | h | h
        · rw [hv] at h; simp [exceptIsOk] at h
        · exact Or.inl h
        · exact Or.inr h
      simp only [ok_bind]
      cases hoi : pySubscript option_data "open_interest" with
      | error e => simp [error_bind]
      | ok oi =>
        have hw : wfail = true := by
          rcases h' with h' | h'
          · rw [hoi] at h'; simp [exceptIsOk] at h'
          · exact h'
        subst hw
        simp [ok_bind, throw, throwThe, MonadExceptOf.throw]

/-- C10 witness: a save whose option data is missing `volume` leaves a
one-row table untouched and returns `False`. -/
theorem whale_C10_witness :
    exceptIsOk (pySubscript (Json.obj [("open_interest", Json.num 5)]) "volume") = false
    ∧ save_option_data_to_table false [rowC10] "T1" "SPY" 575 "C" "2025-03-07"
        (Json.obj [("open_interest", Json.num 5)]) = (false, [rowC10]) :=
  ⟨rfl, whale_C10 false [rowC10] "T1" "SPY" 575 "C" "2025-03-07"
    (Json.obj [("open_interest", Json.num 5)]) (Or.inl rfl)⟩

/-! ## C5: extraction on malformed Success payloads -/

/-- C5 counterexample: on a Success payload whose `results` value is
present but not a mapping, the extractor does not return a parse Failure:
the extraction raises an uncaught AttributeError (only KeyError and
TypeError are caught), falsifying "never raises on any Success payload".
(CPython would say "int object" here; ints and floats collapse to
"number" in the model.) -/
theorem whale_C5_cex :
    rdC5.objLookup "success" = some (Json.bool true)
    ∧ exceptIsOk (extract_option_metrics rdC5) = false
    ∧ extract_option_metrics rdC5 =
        .error (.attributeError "'number' object has no attribute 'get'") :=
  ⟨rfl, rfl, rfl⟩

/-- C5 (amended): on a Success payload, a missing `data` key or a missing
`results` key yields the parse Failure naming the missing key; but when
`results` is present and not a mapping, `extract_option_metrics` raises
an uncaught AttributeError instead of returning a Failure. -/
theorem whale_C5 :
    (∀ (m : List (String × Json)),
      pyTruthy ((lookupKey m "success").getD (Json.bool false)) = true →
      lookupKey m "data" = none →
      extract_option_metrics (Json.obj m) =
        .ok (mkFailure (Json.str "Error parsing response: 'data'")))
    ∧ (∀ (m dm : List (String × Json)),
      pyTruthy ((lookupKey m "success").getD (Json.bool false)) = true →
      lookupKey m "data" = some (Json.obj dm) →
      lookupKey dm "results" = none →
      extract_option_metrics (Json.obj m) =
        .ok (mkFailure (Json.str "Error parsing response: 'results'")))
    ∧ (∀ (m dm : List (String × Json)) (r : Json),
      pyTruthy ((lookupKey m "success").getD (Json.bool false)) = true →
      lookupKey m "data" = some (Json.obj dm) →
      lookupKey dm "results" = some r →
      r.isObj = false →
      extract_option_metrics (Json.obj m) =
        .error (.attributeError ("'" ++ typeName r ++ "' object has no attribute 'get'"))) := by
  refine ⟨?_, ?_, ?_⟩
  · intro m hs hd
    simp only [extract_option_metrics, pyGetD, ok_bind, hs, if_true, extractTry, pySubscript,
      hd, error_bind, caughtByExtract, pyExcStr]
    rfl
  · intro m dm hs hd hr
    simp only [extract_option_metrics, pyGetD, ok_bind, hs, if_true, extractTry, pySubscript,
      hd, hr, error_bind, caughtByExtract, pyExcStr]
    rfl
  · intro m dm r hs hd hr hro
    cases r with
    | obj l => simp [Json.isObj] at hro
    | null =>
      simp only [extract_option_metrics, pyGetD, ok_bind, hs, if_true, extractTry,
        pySubscript, hd, hr, error_bind, caughtByExtract, typeName]
      rfl
    | bool b =>
      simp only [extract_option_metrics, pyGetD, ok_bind, hs, if_true, extractTry,
        pySubscript, hd, hr, error_bind, caughtByExtract, typeName]
      rfl
    | num q =>
      simp only [extract_option_metrics, pyGetD, ok_bind, hs, if_true, extractTry,
        pySubscript, hd, hr, error_bind, caughtByExtract, typeName]
      rfl
    | str s =>
      simp only [extract_option_metrics, pyGetD, ok_bind, hs, if_true, extractTry,
        pySubscript, hd, hr, error_bind, caughtByExtract, typeName]
      rfl
    | arr l =>
      simp only [extract_option_metrics, pyGetD, ok_bind, hs, if_true, extractTry,
        pySubscript, hd, hr, error_bind, caughtByExtract, typeName]
      rfl

/-- C5 witness: the missing-`results` conjunct of `whale_C5` applied to a
concrete Success payload whose data dict is empty. -/
theorem whale_C5_witness :
    pyTruthy ((lookupKey mC5w "success").getD (Json.bool false)) = true
    ∧ lookupKey mC5w "data" = some (Json.obj [])
    ∧ lookupKey ([] : List (String × Json)) "results" = none
    ∧ extract_option_metrics (Json.obj mC5w) =
        .ok (mkFailure (Json.str "Error parsing response: 'results'")) :=
  ⟨rfl, rfl, rfl, whale_C5.2.1 mC5w [] rfl rfl rfl⟩

/-! ## C7: default-on-absence extraction -/

/-- C7: on a Success payload whose `results` is a mapping and whose four
sub-objects (`day`, `details`, `greeks`, `underlying_asset`) are each
either absent or mappings, extraction succeeds; each absent numeric field
defaults to 0, each absent string field to the empty string, and each
absent sub-object to an empty mapping — in particular a payload with no
`greeks` at all yields delta = gamma = theta = vega = 0. -/
theorem whale_C7 : ∀ (dm : List (String × Json)) (res : List (String × Json)) (sc : Json),
    lookupKey dm "results" = some (Json.obj res) →
    ((lookupKey res "day").getD (Json.obj [])).isObj = true →
    ((lookupKey res "details").getD (Json.obj [])).isObj = true →
    ((lookupKey res "greeks").getD (Json.obj [])).isObj = true →
    ((lookupKey res "underlying_asset").getD (Json.obj [])).isObj = true →
    ∃ out : List (String × Json),
      extract_option_metrics (Json.obj [("success", Json.bool true),
          ("data", Json.obj dm), ("status_code", sc)]) = .ok (Json.obj out)
      ∧ lookupKey out "success" = some (Json.bool true)
      ∧ (lookupKey res "greeks" = none →
          lookupKey out "delta" = some (Json.num 0) ∧
          lookupKey out "gamma" = some (Json.num 0) ∧
          lookupKey out "theta" = some (Json.num 0) ∧
          lookupKey out "vega" = some (Json.num 0))
      ∧ (lookupKey res "day" = none → lookupKey out "volume" = some (Json.num 0))
      ∧ (lookupKey res "open_interest" = none →
          lookupKey out "open_interest" = some (Json.num 0))
      ∧ (lookupKey res "details" = none →
          lookupKey out "symbol" = some (Json.str "") ∧
          lookupKey out "contract_type" = some (Json.str "") ∧
          lookupKey out "strike_price" = some (Json.num 0) ∧
          lookupKey out "expiration_date" = some (Json.str ""))
      ∧ (lookupKey res "implied_volatility" = none →
          lookupKey out "implied_volatility" = some (Json.num 0))
      ∧ (lookupKey res "underlying_asset" = none →
          lookupKey out "underlying_ticker" = some (Json.str "")) := by
  intro dm res sc hres hday hdet hgre hund
  obtain ⟨dayl, hdayl⟩ := isObj_exists hday
  obtain ⟨detl, hdetl⟩ := isObj_exists hdet
  obtain ⟨grel, hgrel⟩ := isObj_exists hgre
  obtain ⟨undl, hundl⟩ := isObj_exists hund
  refine ⟨[("success", Json.bool true),
    ("symbol", (lookupKey detl "ticker").getD (Json.str "")),
    ("volume", (lookupKey dayl "volume").getD (Json.num 0)),
    ("open_interest", (lookupKey res "open_interest").getD (Json.num 0)),
    ("contract_type", (lookupKey detl "contract_type").getD (Json.str "")),
    ("strike_price", (lookupKey detl "strike_price").getD (Json.num 0)),
    ("expiration_date", (lookupKey detl "expiration_date").getD (Json.str "")),
    ("delta", (lookupKey grel "delta").getD (Json.num 0)),
    ("gamma", (lookupKey grel "gamma").getD (Json.num 0)),
    ("theta", (lookupKey grel "theta").getD (Json.num 0)),
    ("vega", (lookupKey grel "vega").getD (Json.num 0)),
    ("implied_volatility", (lookupKey res "implied_volatility").getD (Json.num 0)),
    ("underlying_ticker", (lookupKey undl "ticker").getD (Json.str "")),
    ("raw_data", Json.obj res)], ?_, rfl, ?_, ?_, ?_, ?_, ?_, ?_⟩
  · simp only [extract_option_metrics, extractTry]
    simp [pyGetD, pySubscript, lookupKey, ok_bind, hres, hdayl, hdetl, hgrel, hundl]
    rfl
  · intro hno
    rw [hno] at hgrel
    injection hgrel with h
    subst h
    exact ⟨rfl, rfl, rfl, rfl⟩
  · intro hno
    rw [hno] at hdayl
    injection hdayl with h
    subst h
    rfl
  · intro hno
    simp only [lookupKey, hno]
    rfl
  · intro hno
    rw [hno] at hdetl
    injection hdetl with h
    subst h
    exact ⟨rfl, rfl, rfl, rfl⟩
  · intro hno
    simp only [lookupKey, hno]
    rfl
  · intro hno
    rw [hno] at hundl
    injection hundl with h
    subst h
    rfl

/-- C7 witness: `whale_C7` applied to a concrete Success payload whose
results have an open interest but no `day`, `details`, `greeks` or
`underlying_asset` at all. -/
theorem whale_C7_witness :
    lookupKey dmC7w "results" = some (Json.obj resC7w)
    ∧ ((lookupKey resC7w "day").getD (Json.obj [])).isObj = true
    ∧ ((lookupKey resC7w "details").getD (Json.obj [])).isObj = true
    ∧ ((lookupKey resC7w "greeks").getD (Json.obj [])).isObj = true
    ∧ ((lookupKey resC7w "underlying_asset").getD (Json.obj [])).isObj = true
    ∧ (∃ out : List (String × Json),
      extract_option_metrics (Json.obj [("success", Json.bool true),
          ("data", Json.obj dmC7w), ("status_code", Json.num 200)]) = .ok (Json.obj out)
      ∧ lookupKey out "success" = some (Json.bool true)
      ∧ (lookupKey resC7w "greeks" = none →
          lookupKey out "delta" = some (Json.num 0) ∧
          lookupKey out "gamma" = some (Json.num 0) ∧
          lookupKey out "theta" = some (Json.num 0) ∧
          lookupKey out "vega" = some (Json.num 0))
      ∧ (lookupKey resC7w "day" = none → lookupKey out "volume" = some (Json.num 0))
      ∧ (lookupKey resC7w "open_interest" = none →
          lookupKey out "open_interest" = some (Json.num 0))
      ∧ (lookupKey resC7w "details" = none →
          lookupKey out "symbol" = some (Json.str "") ∧
          lookupKey out "contract_type" = some (Json.str "") ∧
          lookupKey out "strike_price" = some (Json.num 0) ∧
          lookupKey out "expiration_date" = some (Json.str ""))
      ∧ (lookupKey resC7w "implied_volatility" = none →
          lookupKey out "implied_volatility" = some (Json.num 0))
      ∧ (lookupKey resC7w "underlying_asset" = none →
          lookupKey out "underlying_ticker" = some (Json.str ""))) :=
  ⟨rfl, rfl, rfl, rfl, rfl,
    whale_C7 dmC7w resC7w (Json.num 200) rfl rfl rfl rfl rfl⟩

/-! ## C1: the upsert keeps exactly one row per tradeID -/

theorem filterOfMap (p : Row → Bool) (f : Row → Row) (l : List Row)
    (hp : ∀ r, p (f r) = p r) : (l.map f).filter p = (l.filter p).map f := by
  induction l with
  | nil => rfl
  | cons r rs ih =>
    simp only [List.map_cons, List.filter_cons, hp]
    cases hpr : p r <;> simp [ih]

theorem rowMapId (f : Row → Row) (l : List Row) (h : ∀ r ∈ l, f r = r) : l.map f = l := by
  induction l with
  | nil => rfl
  | cons r rs ih =>
    simp only [List.map_cons, h r (by simp)]
    rw [ih fun x hx => h x (by simp [hx])]

/-- One call to the upsert with a well-formed option-data dict, on a table
holding at most one row for the tradeID: it returns `True`, leaves exactly
the one freshly written row for that tradeID, and leaves every other
tradeID's rows untouched. -/
theorem save_step (tbl : Table) (tid tk : String) (sk : ℚ) (sd exp : String)
    (od v oi : Json)
    (h1 : (tbl.filter fun r => r.tradeID == tid).length ≤ 1)
    (hv : pySubscript od "volume" = .ok v)
    (hoi : pySubscript od "open_interest" = .ok oi) :
    (save_option_data_to_table false tbl tid tk sk sd exp od).1 = true
    ∧ ((save_option_data_to_table false tbl tid tk sk sd exp od).2.filter
        fun r => r.tradeID == tid) = [⟨tid, tk, sk, sd, exp, v, oi⟩]
    ∧ ∀ s, s ≠ tid →
        ((save_option_data_to_table false tbl tid tk sk sd exp od).2.filter
          fun r => r.tradeID == s) = tbl.filter fun r => r.tradeID == s := by
  cases hf : tbl.filter (fun r => r.tradeID == tid) with
  | nil =>
    -- no existing row: the insert branch appends one fresh row
    have hsave : save_option_data_to_table false tbl tid tk sk sd exp od =
        (true, tbl ++ [⟨tid, tk, sk, sd, exp, v, oi⟩]) := by
      unfold save_option_data_to_table
      simp [tableGet, hf, ok_bind, hv, hoi]
      rfl
    rw [hsave]
    refine ⟨rfl, ?_, ?_⟩
    · simp [List.filter_append, hf, List.filter]
    · intro s hs
      have hbeq : (tid == s) = false := beq_eq_false_iff_ne.mpr fun h => hs h.symm
      simp [List.filter_append, List.filter, hbeq]
  | cons r rest =>
    cases rest with
    | cons r2 rest2 =>
      exfalso
      rw [hf] at h1
      simp at h1
    | nil =>
      -- exactly one existing row: the update branch rewrites it in place
      have hrmem : r ∈ tbl.filter (fun x => x.tradeID == tid) := by
        rw [hf]; exact List.mem_singleton.mpr rfl
      have hrtid : (r.tradeID == tid) = true := (List.mem_filter.mp hrmem).2
      have hrtid' : r.tradeID = tid := by simpa using hrtid
      have hsave : save_option_data_to_table false tbl tid tk sk sd exp od =
          (true, tbl.map fun x =>
            if x.tradeID == tid then ⟨x.tradeID, tk, sk, sd, exp, v, oi⟩ else x) := by
        unfold save_option_data_to_table
        simp [tableGet, hf, ok_bind, hv, hoi]
        rfl
      rw [hsave]
      have hpres : ∀ s' : String, ∀ x : Row,
          (((if x.tradeID == tid then (⟨x.tradeID, tk, sk, sd, exp, v, oi⟩ : Row) else x)).tradeID
            == s') = (x.tradeID == s') := by
        intro s' x
        by_cases hx : (x.tradeID == tid) = true <;> simp [hx]
      refine ⟨rfl, ?_, ?_⟩
      · rw [filterOfMap _ _ _ (hpres tid), hf]
        simp [hrtid']
      · intro s hs
        rw [filterOfMap _ _ _ (hpres s)]
        apply rowMapId
        intro x hx
        have hxs : (x.tradeID == s) = true := (List.mem_filter.mp hx).2
        have hxs' : x.tradeID = s := by simpa using hxs
        have : (x.tradeID == tid) = false := by
          simp [hxs']
          exact fun h => hs h
        simp [this]

/-- Folding any number of well-formed upserts for one tradeID preserves
the at-most-one-row invariant for it and never touches other tradeIDs. -/
theorem save_fold_aux (tid tk : String) (sk : ℚ) (sd exp : String) :
    ∀ (calls : List (Json × Json × Json)) (tbl : Table),
    (tbl.filter fun r => r.tradeID == tid).length ≤ 1 →
    (∀ c ∈ calls,
      pySubscript c.1 "volume" = .ok c.2.1 ∧ pySubscript c.1 "open_interest" = .ok c.2.2) →
    ((calls.foldl (fun t c => (save_option_data_to_table false t tid tk sk sd exp c.1).2)
        tbl).filter fun r => r.tradeID == tid).length ≤ 1
    ∧ ∀ s, s ≠ tid →
        ((calls.foldl (fun t c => (save_option_data_to_table false t tid tk sk sd exp c.1).2)
          tbl).filter fun r => r.tradeID == s) = tbl.filter fun r => r.tradeID == s := by
  intro calls
  induction calls with
  | nil => intro tbl h1 _; exact ⟨h1, fun _ _ => rfl⟩
  | cons c cs ih =>
    intro tbl h1 hwf
    have hc := hwf c (by simp)
    have hcs : ∀ x ∈ cs,
        pySubscript x.1 "volume" = .ok x.2.1 ∧ pySubscript x.1 "open_interest" = .ok x.2.2 :=
      fun x hx => hwf x (by simp [hx])
    obtain ⟨_, hstep2, hstep3⟩ := save_step tbl tid tk sk sd exp c.1 c.2.1 c.2.2 h1 hc.1 hc.2
    simp only [List.foldl_cons]
    obtain ⟨ih1, ih2⟩ := ih ((save_option_data_to_table false tbl tid tk sk sd exp c.1).2)
      (by rw [hstep2]; simp) hcs
    exact ⟨ih1, fun s hs => (ih2 s hs).trans (hstep3 s hs)⟩

/-- C1: starting from any table with at most one row for a tradeID,
any non-empty sequence of upsert calls for that tradeID (each with a
well-formed option-data dict) leaves exactly one row for it — holding the
last call's volume and open interest — and leaves every other tradeID's
rows exactly as they were: the upsert updates in place when a row exists
and inserts only when absent, never duplicating. -/
theorem whale_C1 : ∀ (tbl : Table) (tid tk : String) (sk : ℚ) (sd exp : String)
    (init : List (Json × Json × Json)) (od v oi : Json),
    (tbl.filter fun r => r.tradeID == tid).length ≤ 1 →
    (∀ c ∈ init ++ [(od, v, oi)],
      pySubscript c.1 "volume" = .ok c.2.1 ∧ pySubscript c.1 "open_interest" = .ok c.2.2) →
    (((init ++ [(od, v, oi)]).foldl
        (fun t c => (save_option_data_to_table false t tid tk sk sd exp c.1).2) tbl).filter
      fun r => r.tradeID == tid) = [⟨tid, tk, sk, sd, exp, v, oi⟩]
    ∧ ∀ s, s ≠ tid →
        (((init ++ [(od, v, oi)]).foldl
            (fun t c => (save_option_data_to_table false t tid tk sk sd exp c.1).2) tbl).filter
          fun r => r.tradeID == s) = tbl.filter fun r => r.tradeID == s := by
  intro tbl tid tk sk sd exp init od v oi h1 hwf
  have hwfinit : ∀ c ∈ init,
      pySubscript c.1 "volume" = .ok c.2.1 ∧ pySubscript c.1 "open_interest" = .ok c.2.2 :=
    fun c hc => hwf c (List.mem_append_left _ hc)
  have hlast := hwf (od, v, oi) (List.mem_append_right _ (List.mem_singleton.mpr rfl))
  obtain ⟨haux1, haux2⟩ := save_fold_aux tid tk sk sd exp init tbl h1 hwfinit
  rw [List.foldl_append]
  simp only [List.foldl_cons, List.foldl_nil]
  obtain ⟨_, hstep2, hstep3⟩ := save_step
    (init.foldl (fun t c => (save_option_data_to_table false t tid tk sk sd exp c.1).2) tbl)
    tid tk sk sd exp od v oi haux1 hlast.1 hlast.2
  exact ⟨hstep2, fun s hs => (hstep3 s hs).trans (haux2 s hs)⟩

/-- C1 witness: two consecutive upserts for tradeID "T1" on an initially
empty table leave exactly one "T1" row with the second call's values. -/
theorem whale_C1_witness :
    (([] : Table).filter fun r => r.tradeID == "T1").length ≤ 1
    ∧ (∀ c ∈ [(odC1a, Json.num 1, Json.num 2)] ++ [(odC1b, Json.num 3, Json.num 4)],
        pySubscript c.1 "volume" = .ok c.2.1 ∧ pySubscript c.1 "open_interest" = .ok c.2.2)
    ∧ ((([(odC1a, Json.num 1, Json.num 2)] ++ [(odC1b, Json.num 3, Json.num 4)]).foldl
          (fun t c => (save_option_data_to_table false t "T1" "SPY" 575 "C" "2025-03-07" c.1).2)
          ([] : Table)).filter fun r => r.tradeID == "T1") =
        [⟨"T1", "SPY", 575, "C", "2025-03-07", Json.num 3, Json.num 4⟩] := by
  have hwf : ∀ c ∈ [(odC1a, Json.num 1, Json.num 2)] ++ [(odC1b, Json.num 3, Json.num 4)],
      pySubscript c.1 "volume" = .ok c.2.1 ∧ pySubscript c.1 "open_interest" = .ok c.2.2 := by
    intro c hc
    simp only [List.mem_append, List.mem_singleton] at hc
    rcases hc with rfl | rfl
    · exact ⟨rfl, rfl⟩
    · exact ⟨rfl, rfl⟩
  refine ⟨by decide, hwf, ?_⟩
  exact (whale_C1 [] "T1" "SPY" 575 "C" "2025-03-07" [(odC1a, Json.num 1, Json.num 2)]
    odC1b (Json.num 3) (Json.num 4) (by decide) hwf).1

/-! ## C2: the batch runner does not persist snapshots -/

/-- C2 counterexample: a fully successful one-entry run (its single
outcome is a success dict) leaves the snapshot table empty: no snapshot
is persisted for the entry's tradeID, because `get_all_contract_data`
never invokes `save_option_data_to_table`. -/
theorem whale_C2_cex :
    batchAllSucceeded (get_all_contract_data_st [] secretsStub httpC2 [whaleC2]).1 = true
    ∧ (get_all_contract_data_st [] secretsStub httpC2 [whaleC2]).2 = []
    ∧ ((get_all_contract_data_st [] secretsStub httpC2 [whaleC2]).2.filter
        fun r => r.tradeID == "T1") = [] :=
  ⟨rfl, rfl, rfl⟩

/-- C2 (amended): the batch runner only fetches, tags and aggregates; it
never writes through the snapshot store — for every starting table,
transport and watchlist, the `todaysdata` table after the run is exactly
the table before it, and the returned outcomes do not depend on the
table at all. -/
theorem whale_C2 : ∀ (tbl : Table) (secrets : String → String)
    (http : String → HttpOutcome) (whales : List Whale),
    (get_all_contract_data_st tbl secrets http whales).2 = tbl
    ∧ (get_all_contract_data_st tbl secrets http whales).1 =
        get_all_contract_data secrets http whales :=
  fun _ _ _ _ => ⟨rfl, rfl⟩

/-! ## C3: batch shape, failure isolation, and the date-parse abort -/

theorem lookupKey_setKey (m : List (String × Json)) (k : String) (x : Json) :
    lookupKey (setKey m k x) k = some x := by
  induction m with
  | nil => simp [setKey, lookupKey]
  | cons p rest ih =>
    obtain ⟨key, val⟩ := p
    by_cases h : key = k
    · subst h; simp [setKey, lookupKey]
    · simp [setKey, lookupKey, h, ih]

theorem pySetItem_ok (v0 : Json) (k : String) (x od : Json)
    (h : pySetItem v0 k x = .ok od) : od.objLookup k = some x := by
  cases v0 with
  | obj m =>
    simp only [pySetItem, Except.ok.injEq] at h
    subst h
    exact lookupKey_setKey m k x
  | null => simp [pySetItem] at h
  | bool b => simp [pySetItem] at h
  | num q => simp [pySetItem] at h
  | str s => simp [pySetItem] at h
  | arr l => simp [pySetItem] at h

/-- Every successful loop iteration returns a dict tagged with the
entry's tradeID (the `option_data["tradeID"] = trade_id` assignment). -/
theorem processWhale_tag (secrets : String → String) (http : String → HttpOutcome)
    (w : Whale) (v : Json) (h : processWhale secrets http w = .ok v) :
    v.objLookup "tradeID" = some (Json.str w.tradeID) := by
  unfold processWhale at h
  cases hg : get_option_data secrets http w.ticker w.strike
      (if w.side = "C" then "call" else "put") w.expiration with
  | error e => simp only [hg] at h; exact absurd h (by simp)
  | ok od0 =>
    simp only [hg] at h
    cases hset : pySetItem od0 "tradeID" (Json.str w.tradeID) with
    | error e => simp only [hset] at h; exact absurd h (by simp)
    | ok od =>
      simp only [hset] at h
      have htag := pySetItem_ok od0 "tradeID" (Json.str w.tradeID) od hset
      cases hsub : pySubscript od "success" with
      | error e => simp only [hsub] at h; exact absurd h (by simp)
      | ok s =>
        simp only [hsub] at h
        by_cases hpt : pyTruthy s = true
        · rw [if_pos hpt] at h
          cases hpr : printSuccessChecks od with
          | error e => simp only [hpr] at h; exact absurd h (by simp)
          | ok u =>
            simp only [hpr] at h
            injection h with h2
            subst h2
            exact htag
        · rw [if_neg hpt] at h
          cases hge : pyGetD od "error" (Json.str "Unknown error") with
          | error e => simp only [hge] at h; exact absurd h (by simp)
          | ok u =>
            simp only [hge] at h
            injection h with h2
            subst h2
            exact htag

/-- When every iteration succeeds, the batch returns one tagged outcome
per entry, in watchlist order. -/
theorem batch_all_ok : ∀ (secrets : String → String) (http : String → HttpOutcome)
    (whales : List Whale),
    (whales.all fun w => exceptIsOk (processWhale secrets http w)) = true →
    get_all_contract_data secrets http whales =
      .ok (whales.map fun w => exceptGetD (processWhale secrets http w) Json.null)
    ∧ ∀ w ∈ whales,
        (exceptGetD (processWhale secrets http w) Json.null).objLookup "tradeID" =
          some (Json.str w.tradeID) := by
  intro secrets http whales
  induction whales with
  | nil => intro _; exact ⟨rfl, by simp⟩
  | cons w ws ih =>
    intro hall
    simp only [List.all_cons, Bool.and_eq_true] at hall
    obtain ⟨hw, hws⟩ := hall
    obtain ⟨ih1, ih2⟩ := ih hws
    cases hpw : processWhale secrets http w with
    | error e => rw [hpw] at hw; simp [exceptIsOk] at hw
    | ok v =>
      constructor
      · simp only [get_all_contract_data, hpw, ok_bind, ih1, List.map_cons]
        rfl
      · intro x hx
        rcases List.mem_cons.mp hx with rfl | hx'
        · rw [hpw]
          exact processWhale_tag secrets http x v hpw
        · exact ih2 x hx'

/-- A fetch-level failure (the transport raised) still yields a
successful iteration producing the tagged failure dict: it cannot abort
the batch. -/
theorem batch_fetch_failure : ∀ (secrets : String → String) (msg : String) (st : Option Nat)
    (w : Whale) (y m d : Nat),
    parseYMD w.expiration = some (y, m, d) →
    processWhale secrets (fun _ => .requestError msg st) w =
      .ok (Json.obj [("success", Json.bool false), ("error", Json.str msg),
        ("tradeID", Json.str w.tradeID)]) := by
  intro secrets msg st w y m d hp
  unfold processWhale get_option_data
  simp only [build_option_symbol, hp, ok_bind]
  rfl

theorem processWhale_bad_date (secrets : String → String) (http : String → HttpOutcome)
    (w : Whale) (hbad : parseYMD w.expiration = none) :
    processWhale secrets http w = .error (strptimeError w.expiration) := by
  unfold processWhale get_option_data
  simp only [build_option_symbol, hbad, error_bind]

/-- A malformed expiration date in any entry makes the whole batch raise
the `strptime` ValueError, provided the entries before it went through. -/
theorem batch_abort_on_bad_date (secrets : String → String) (http : String → HttpOutcome)
    (w : Whale) (post : List Whale) (hbad : parseYMD w.expiration = none) :
    ∀ pre : List Whale, (pre.all fun x => exceptIsOk (processWhale secrets http x)) = true →
    get_all_contract_data secrets http (pre ++ w :: post) =
      .error (strptimeError w.expiration)
  | [], _ => by
    simp only [List.nil_append, get_all_contract_data,
      processWhale_bad_date secrets http w hbad, error_bind]
  | x :: xs, hall => by
    simp only [List.all_cons, Bool.and_eq_true] at hall
    obtain ⟨hx, hxs⟩ := hall
    cases hpx : processWhale secrets http x with
    | error e => rw [hpx] at hx; simp [exceptIsOk] at hx
    | ok v =>
      have hrec := batch_abort_on_bad_date secrets http w post hbad xs hxs
      simp only [List.cons_append, get_all_contract_data, hpx, ok_bind, List.append_eq]
      rw [hrec]
      rfl

/-- C3 (corrected/amended): when every iteration goes through, the batch
returns exactly one outcome per watchlist entry, in order, each tagged
with its tradeID — and a fetch failure never aborts an iteration, it is
recorded as a tagged failure dict; but a ValidationError from a malformed
expiration date during symbol building is not contained: it propagates
and aborts the whole batch. -/
theorem whale_C3 :
    (∀ (secrets : String → String) (http : String → HttpOutcome) (whales : List Whale),
      (whales.all fun w => exceptIsOk (processWhale secrets http w)) = true →
      get_all_contract_data secrets http whales =
        .ok (whales.map fun w => exceptGetD (processWhale secrets http w) Json.null)
      ∧ (whales.map fun w => exceptGetD (processWhale secrets http w) Json.null).length =
          whales.length
      ∧ ∀ w ∈ whales,
          (exceptGetD (processWhale secrets http w) Json.null).objLookup "tradeID" =
            some (Json.str w.tradeID))
    ∧ (∀ (secrets : String → String) (msg : String) (st : Option Nat) (w : Whale) (y m d : Nat),
        parseYMD w.expiration = some (y, m, d) →
        processWhale secrets (fun _ => .requestError msg st) w =
          .ok (Json.obj [("success", Json.bool false), ("error", Json.str msg),
            ("tradeID", Json.str w.tradeID)]))
    ∧ (∀ (secrets : String → String) (http : String → HttpOutcome) (w : Whale)
        (post pre : List Whale),
        parseYMD w.expiration = none →
        (pre.all fun x => exceptIsOk (processWhale secrets http x)) = true →
        get_all_contract_data secrets http (pre ++ w :: post) =
          .error (strptimeError w.expiration)) := by
  refine ⟨?_, batch_fetch_failure, ?_⟩
  · intro secrets http whales hall
    obtain ⟨h1, h2⟩ := batch_all_ok secrets http whales hall
    exact ⟨h1, by simp, h2⟩
  · intro secrets http w post pre hbad hpre
    exact batch_abort_on_bad_date secrets http w post hbad pre hpre

/-- C3 counterexample: a two-entry watchlist whose first entry has the
malformed expiration "bad-date" makes `get_all_contract_data` raise the
strptime ValueError instead of returning two outcomes — the
ValidationError aborts the batch, contradicting the claim that it never
short-circuits the remaining entries. -/
theorem whale_C3_cex :
    get_all_contract_data secretsStub httpC2 [whaleC3bad, whaleC2] =
      .error (strptimeError "bad-date")
    ∧ batchAllSucceeded (get_all_contract_data secretsStub httpC2 [whaleC3bad, whaleC2]) =
        false :=
  ⟨rfl, rfl⟩

/-- C3 witness: the all-iterations-succeed conjunct of `whale_C3` applied
to a concrete two-entry watchlist whose every fetch fails: the batch
still returns two tagged outcomes in order. -/
theorem whale_C3_witness :
    (([whaleC2, whaleC3b].all fun w =>
        exceptIsOk (processWhale secretsStub httpAllFail w)) = true)
    ∧ (get_all_contract_data secretsStub httpAllFail [whaleC2, whaleC3b] =
        .ok ([whaleC2, whaleC3b].map fun w =>
          exceptGetD (processWhale secretsStub httpAllFail w) Json.null)
      ∧ ([whaleC2, whaleC3b].map fun w =>
          exceptGetD (processWhale secretsStub httpAllFail w) Json.null).length =
          [whaleC2, whaleC3b].length
      ∧ ∀ w ∈ [whaleC2, whaleC3b],
          (exceptGetD (processWhale secretsStub httpAllFail w) Json.null).objLookup "tradeID" =
            some (Json.str w.tradeID)) :=
  ⟨rfl, whale_C3.1 secretsStub httpAllFail [whaleC2, whaleC3b] rfl⟩

end WhaleWatcher

